import Mathlib

/-!
Verification of the ServicePi IoT API service (src/configs/iot/app.py).

The service is a Flask app dispatching HTTP requests over two pieces of
process-wide mutable state: a list of sensor readings (sensor_data) and a
map from device identifier to device record (device_status).  We embed the
JSON values, the dict operations the handlers perform, the server state and
every route handler as executable Lean definitions, and prove the claimed
request/response and frame properties about them.

Modelling conventions:
- Python dicts are association lists of (key, value) pairs; lookup returns
  the first binding, assignment replaces the binding in place (or appends a
  fresh one), mirroring dict semantics where keys are unique.
- The current UTC time (datetime.utcnow().isoformat()) is an input `now`
  passed to each handler.
- request.get_json() is modelled by an `Option Obj` argument: `none` when
  the body is absent or not parseable JSON, `some data` otherwise.  The
  Python truthiness test `if not data` is false exactly for an empty dict,
  modelled by `isEmpty`.
- The outbound HTTP call in /api/system/communicate is modelled by a
  `PeerOutcome` input: either a response (status code and elapsed time) or
  a raised exception carrying its stringified text.
-/

/-- JSON-like values stored in readings and device records. -/
inductive JVal where
  | null
  | bool (b : Bool)
  | num (q : Rat)
  | str (s : String)
deriving DecidableEq, Repr

/-- A Python dict with string keys, as an association list. -/
abbrev Dict (α : Type) := List (String × α)

/-- A JSON object / Python dict of JSON values. -/
abbrev Obj := Dict JVal

/-- Dict lookup, d[k] as an Option: the first binding for k. -/
def getv {α : Type} : Dict α → String → Option α
  | [], _ => none
  | p :: rest, k => if p.1 = k then some p.2 else getv rest k

/-- Membership test, `k in d` in Python. -/
def hasKey {α : Type} (d : Dict α) (k : String) : Bool :=
  (getv d k).isSome

/-- Dict assignment d[k] = v: replace the binding in place, else append. -/
def setv {α : Type} (d : Dict α) (k : String) (v : α) : Dict α :=
  if hasKey d k then d.map (fun p => if p.1 = k then (k, v) else p)
  else d ++ [(k, v)]

/-- Python d.update(other): assign every binding of other into d. -/
def updateObj {α : Type} (d other : Dict α) : Dict α :=
  other.foldl (fun acc p => setv acc p.1 p.2) d

/-- Python dict equality is content equality: same value at every key. -/
def ObjEquiv (o₁ o₂ : Obj) : Prop :=
  ∀ k, getv o₁ k = getv o₂ k

/-- The process-wide mutable state of app.py: the reading list and the
device map. -/
structure ServerState where
  sensor_data : List Obj
  device_status : Dict Obj
deriving DecidableEq, Repr

/-- Fallback service name from app.py (config.get fallback). -/
def SERVICE_NAME : String := "ServicePi IoT"

/-- The device_status dict initialised at module load in app.py. -/
def device_status_init : Dict Obj :=
  [ ("temperature_sensor",
      [("status", .str "online"), ("last_reading", .num 22.5), ("unit", .str "Â°C")]),
    ("humidity_sensor",
      [("status", .str "online"), ("last_reading", .num 65.2), ("unit", .str "%")]),
    ("motion_sensor",
      [("status", .str "online"), ("last_reading", .bool false), ("unit", .str "boolean")]) ]

/-- The state at process start: empty reading list, seeded device map. -/
def initState : ServerState :=
  { sensor_data := [], device_status := device_status_init }

/-- Outcome of the outbound requests.get call in communicate_with_services:
either an HTTP response (status code, elapsed seconds) or an exception with
its stringified text. -/
inductive PeerOutcome where
  | resp (status_code : Nat) (elapsed : Rat)
  | exc (msg : String)
deriving DecidableEq, Repr

/-- The JSON response bodies the handlers in app.py produce, one
constructor per jsonify call shape. -/
inductive Resp where
  | rootResp (service version timestamp : String) (endpoints : List String)
  | healthResp (status service timestamp : String)
  | sensorsResp (sensors : Dict Obj) (timestamp : String)
  | dataList (data : List Obj) (count : Nat) (timestamp : String)
  | noData
  | created (data : Obj)
  | devicesResp (devices : Dict Obj) (total_devices online_devices : Nat) (timestamp : String)
  | deviceNotFound
  | deviceGot (device_id : String) (device : Obj) (timestamp : String)
  | deviceUpdated (device_id : String) (device : Obj)
  | infoResp (total_sensor_readings total_devices online_devices : Nat) (timestamp : String)
  | commOk (web_status : String) (response_time : Rat) (portainer timestamp : String)
  | commFailed (error details timestamp : String)
deriving DecidableEq, Repr

/-- HTTP status code each response is returned with in app.py (Flask
defaults to 200 when none is given). -/
def Resp.statusCode : Resp → Nat
  | .noData => 400
  | .created _ => 201
  | .deviceNotFound => 404
  | .commFailed _ _ _ => 500
  | _ => 200

/-- The error field of the response body, when present. -/
def Resp.errorField : Resp → Option String
  | .noData => some "No data provided"
  | .deviceNotFound => some "Device not found"
  | .commFailed e _ _ => some e
  | _ => none

/-- Adds a timestamp to a posted reading if not provided (app.py lines
83-84). -/
def stampTimestamp (data : Obj) (now : String) : Obj :=
  if hasKey data "timestamp" then data else setv data "timestamp" (.str now)

/-- Python list slice l[-n:] for n ≥ 1: the last n elements. -/
def takeLast {α : Type} (n : Nat) (l : List α) : List α :=
  l.drop (l.length - n)

/-- Number of devices whose status field equals "online" (app.py lines
101 and 145). -/
def onlineCount (m : Dict Obj) : Nat :=
  m.countP (fun p => decide (getv p.2 "status" = some (.str "online")))

/-- GET branch of sensor_data_endpoint: last 100 readings, total count,
timestamp. -/
def sensor_data_get (now : String) (s : ServerState) : Resp :=
  .dataList (takeLast 100 s.sensor_data) s.sensor_data.length now

/-- Device-status side effect of a posted reading (app.py lines 89-91):
when the sensor_type field of the reading is a string naming a known
device, overwrite that device record with last_reading set to the value
field (None when absent) and status set to "online". -/
def updateDeviceRecord (st : String) (value : Option JVal) (m : Dict Obj) : Dict Obj :=
  match getv m st with
  | some r₀ =>
      setv m st
        (setv (setv r₀ "last_reading" (value.getD .null)) "status" (.str "online"))
  | none => m

/-- Dispatch of the device-status side effect on the sensor_type field:
only a string value naming a key of the map triggers the update. -/
def updateDeviceFromReading (data : Obj) (m : Dict Obj) : Dict Obj :=
  match getv data "sensor_type" with
  | some (.str st) => updateDeviceRecord st (getv data "value") m
  | _ => m

/-- POST branch of sensor_data_endpoint: reject a missing or falsy body,
stamp the timestamp, append the reading, and update the named device when
its sensor_type is a known key. -/
def sensor_data_post (body : Option Obj) (now : String) (s : ServerState) :
    Resp × ServerState :=
  match body with
  | none => (.noData, s)
  | some data =>
    if data.isEmpty then (.noData, s)
    else
      let data := stampTimestamp data now
      (.created data,
       { sensor_data := s.sensor_data ++ [data],
         device_status := updateDeviceFromReading data s.device_status })

/-- GET branch of device_endpoint: 404 for unknown ids, else the record. -/
def device_get (device_id : String) (now : String) (s : ServerState) : Resp :=
  match getv s.device_status device_id with
  | none => .deviceNotFound
  | some d => .deviceGot device_id d now

/-- PUT branch of device_endpoint: 404 for unknown ids, 400 for a missing
or falsy body, else merge the body into the record (dict.update). -/
def device_put (device_id : String) (body : Option Obj) (s : ServerState) :
    Resp × ServerState :=
  match getv s.device_status device_id with
  | none => (.deviceNotFound, s)
  | some r₀ =>
    match body with
    | none => (.noData, s)
    | some data =>
      if data.isEmpty then (.noData, s)
      else
        let r₁ := updateObj r₀ data
        (.deviceUpdated device_id r₁,
         { s with device_status := setv s.device_status device_id r₁ })

/-- Route of communicate_with_services: report the peer health on a
response, return the 500 error body with the stringified exception on any
exception. -/
def communicate_with_services (outcome : PeerOutcome) (now : String) : Resp :=
  match outcome with
  | .resp c e => .commOk (if c = 200 then "healthy" else "unhealthy") e "accessible" now
  | .exc m => .commFailed "Communication failed" m now

/-- The requests the app routes, with their parsed inputs. -/
inductive Request where
  | getRoot
  | getHealth
  | getSensors
  | getSensorData
  | postSensorData (body : Option Obj)
  | getDevices
  | getDevice (device_id : String)
  | putDevice (device_id : String) (body : Option Obj)
  | getSystemInfo
  | postCommunicate (outcome : PeerOutcome)
deriving DecidableEq, Repr

/-- Whether the request uses the GET method. -/
def Request.isGet : Request → Bool
  | .getRoot | .getHealth | .getSensors | .getSensorData
  | .getDevices | .getDevice _ | .getSystemInfo => true
  | _ => false

/-- The endpoint list returned by the root route. -/
def endpointList : List String :=
  ["/health", "/api/sensors", "/api/sensors/data", "/api/devices", "/api/system/info"]

/-- The full request dispatcher of app.py: route a request to its handler,
producing the response and the next state. -/
def handle (req : Request) (now : String) (s : ServerState) : Resp × ServerState :=
  match req with
  | .getRoot => (.rootResp SERVICE_NAME "1.0.0" now endpointList, s)
  | .getHealth => (.healthResp "healthy" SERVICE_NAME now, s)
  | .getSensors => (.sensorsResp s.device_status now, s)
  | .getSensorData => (sensor_data_get now s, s)
  | .postSensorData body => sensor_data_post body now s
  | .getDevices =>
      (.devicesResp s.device_status s.device_status.length (onlineCount s.device_status) now, s)
  | .getDevice id => (device_get id now s, s)
  | .putDevice id body => device_put id body s
  | .getSystemInfo =>
      (.infoResp s.sensor_data.length s.device_status.length (onlineCount s.device_status) now, s)
  | .postCommunicate oc => (communicate_with_services oc now, s)

/-- Posting a sequence of readings in order (the same now for each). -/
def postMany (bodies : List Obj) (now : String) (s : ServerState) : ServerState :=
  bodies.foldl (fun st b => (handle (.postSensorData (some b)) now st).2) s

/-! ### Lemmas about the dict operations -/

theorem getv_append_of_none {α : Type} (d : Dict α) (k : String) (v : α)
    (h : getv d k = none) : getv (d ++ [(k, v)]) k = some v := by
  induction d with
  | nil => simp [getv]
  | cons p rest ih =>
    by_cases hp : p.1 = k
    · simp [getv, hp] at h
    · simp only [List.cons_append, getv, hp, if_false]
      exact ih (by simpa [getv, hp] using h)

theorem getv_append_single_ne {α : Type} (d : Dict α) {k k' : String} (v : α)
    (h : k' ≠ k) : getv (d ++ [(k, v)]) k' = getv d k' := by
  induction d with
  | nil => simp [getv, Ne.symm h]
  | cons p rest ih =>
    by_cases hp : p.1 = k'
    · simp [getv, hp]
    · simp [getv, hp, ih]

theorem getv_map_setkey {α : Type} (d : Dict α) (k : String) (v : α)
    (h : hasKey d k = true) :
    getv (d.map (fun p => if p.1 = k then (k, v) else p)) k = some v := by
  induction d with
  | nil => simp [hasKey, getv] at h
  | cons p rest ih =>
    by_cases hp : p.1 = k
    · simp [getv, hp]
    · have hr : hasKey rest k = true := by simpa [hasKey, getv, hp] using h
      simp [getv, hp, ih hr]

theorem getv_map_setkey_ne {α : Type} (d : Dict α) {k k' : String} (v : α)
    (h : k' ≠ k) :
    getv (d.map (fun p => if p.1 = k then (k, v) else p)) k' = getv d k' := by
  induction d with
  | nil => simp [getv]
  | cons p rest ih =>
    by_cases hp : p.1 = k
    · have h1 : (if p.1 = k then (k, v) else p) = (k, v) := if_pos hp
      have h2 : ¬(k = k') := Ne.symm h
      have h3 : ¬(p.1 = k') := fun hh => h2 (hp.symm.trans hh)
      simp only [List.map_cons, h1, getv, if_neg h2, if_neg h3, ih]
    · have h1 : (if p.1 = k then (k, v) else p) = p := if_neg hp
      simp only [List.map_cons, h1, getv, ih]

theorem getv_setv_self {α : Type} (d : Dict α) (k : String) (v : α) :
    getv (setv d k v) k = some v := by
  unfold setv
  by_cases h : hasKey d k
  · simp only [h, if_true]
    exact getv_map_setkey d k v h
  · simp only [h, if_false]
    apply getv_append_of_none
    have : ¬(getv d k).isSome = true := by simpa [hasKey] using h
    exact Option.not_isSome_iff_eq_none.mp this

theorem getv_setv_ne {α : Type} (d : Dict α) {k k' : String} (v : α)
    (h : k' ≠ k) : getv (setv d k v) k' = getv d k' := by
  unfold setv
  by_cases hk : hasKey d k
  · simp only [hk, if_true]
    exact getv_map_setkey_ne d v h
  · simp only [hk, if_false]
    exact getv_append_single_ne d v h

theorem hasKey_setv_of_hasKey {α : Type} (d : Dict α) (k₀ k : String) (v : α)
    (h : hasKey d k₀ = true) : hasKey (setv d k₀ v) k = hasKey d k := by
  by_cases hk : k = k₀
  · subst hk
    simp only [hasKey, getv_setv_self, Option.isSome_some]
    exact h.symm
  · simp [hasKey, getv_setv_ne d v hk]

theorem hasKey_eq_false_of_not_mem {α : Type} (d : Dict α) (k : String)
    (h : k ∉ d.map Prod.fst) : hasKey d k = false := by
  induction d with
  | nil => rfl
  | cons p rest ih =>
    simp only [List.map_cons, List.mem_cons, not_or] at h
    have hp : p.1 ≠ k := fun hh => h.1 hh.symm
    simp [hasKey, getv, hp]
    simpa [hasKey] using ih h.2

theorem updateObj_nil {α : Type} (d : Dict α) : updateObj d [] = d := rfl

theorem updateObj_cons {α : Type} (d : Dict α) (p : String × α) (rest : Dict α) :
    updateObj d (p :: rest) = updateObj (setv d p.1 p.2) rest := rfl

theorem getv_updateObj_of_not_hasKey {α : Type} (d other : Dict α) (k : String)
    (h : hasKey other k = false) : getv (updateObj d other) k = getv d k := by
  induction other generalizing d with
  | nil => rfl
  | cons p rest ih =>
    by_cases hp : p.1 = k
    · simp [hasKey, getv, hp] at h
    · have hr : hasKey rest k = false := by simpa [hasKey, getv, hp] using h
      rw [updateObj_cons, ih _ hr, getv_setv_ne _ _ (Ne.symm hp)]

theorem getv_updateObj_of_getv {α : Type} (d other : Dict α) (k : String) (v : α)
    (hnd : (other.map Prod.fst).Nodup) (h : getv other k = some v) :
    getv (updateObj d other) k = some v := by
  induction other generalizing d with
  | nil => simp [getv] at h
  | cons p rest ih =>
    rw [updateObj_cons]
    have hnd2 : p.1 ∉ rest.map Prod.fst ∧ (rest.map Prod.fst).Nodup := by
      rw [List.map_cons] at hnd
      exact List.nodup_cons.mp hnd
    rcases hnd2 with ⟨hmem, hnd'⟩
    by_cases hp : p.1 = k
    · have hv : p.2 = v := by simpa [getv, hp] using h
      have hk : hasKey rest k = false :=
        hasKey_eq_false_of_not_mem rest k (by rw [← hp]; exact hmem)
      rw [getv_updateObj_of_not_hasKey _ _ _ hk, ← hp, getv_setv_self, hv]
    · have h' : getv rest k = some v := by simpa [getv, hp] using h
      exact ih _ hnd' h'

/-! ### Lemmas about timestamp stamping and the handlers -/

theorem hasKey_stampTimestamp (data : Obj) (now : String) :
    hasKey (stampTimestamp data now) "timestamp" = true := by
  unfold stampTimestamp
  by_cases h : hasKey data "timestamp"
  · rw [if_pos h]
    exact h
  · rw [if_neg h]
    simp [hasKey, getv_setv_self]

theorem getv_stampTimestamp_ne (data : Obj) (now : String) (k : String)
    (h : k ≠ "timestamp") : getv (stampTimestamp data now) k = getv data k := by
  unfold stampTimestamp
  by_cases hk : hasKey data "timestamp"
  · simp [hk]
  · simp only [hk, Bool.false_eq_true, if_false]
    exact getv_setv_ne data _ h

theorem getv_stampTimestamp_present (data : Obj) (now : String)
    (h : hasKey data "timestamp" = true) :
    getv (stampTimestamp data now) "timestamp" = getv data "timestamp" := by
  simp [stampTimestamp, h]

theorem getv_stampTimestamp_absent (data : Obj) (now : String)
    (h : hasKey data "timestamp" = false) :
    getv (stampTimestamp data now) "timestamp" = some (.str now) := by
  simp only [stampTimestamp, h, Bool.false_eq_true, if_false]
  exact getv_setv_self data _ _

theorem updateDeviceRecord_known (st : String) (value : Option JVal) (r₀ : Obj)
    (m : Dict Obj) (hdev : getv m st = some r₀) :
    updateDeviceRecord st value m =
      setv m st
        (setv (setv r₀ "last_reading" (value.getD .null)) "status" (.str "online")) := by
  unfold updateDeviceRecord
  rw [hdev]

theorem updateDeviceFromReading_known (data : Obj) (id : String) (r₀ : Obj)
    (m : Dict Obj) (hst : getv data "sensor_type" = some (.str id))
    (hdev : getv m id = some r₀) :
    updateDeviceFromReading data m =
      setv m id
        (setv (setv r₀ "last_reading" ((getv data "value").getD .null))
          "status" (.str "online")) := by
  unfold updateDeviceFromReading
  rw [hst]
  exact updateDeviceRecord_known id (getv data "value") r₀ m hdev

theorem hasKey_updateDeviceRecord (st : String) (value : Option JVal)
    (m : Dict Obj) (k : String) :
    hasKey (updateDeviceRecord st value m) k = hasKey m k := by
  unfold updateDeviceRecord
  cases h2 : getv m st with
  | none => rfl
  | some r₀ => exact hasKey_setv_of_hasKey m st k _ (by simp [hasKey, h2])

theorem hasKey_updateDeviceFromReading (data : Obj) (m : Dict Obj) (k : String) :
    hasKey (updateDeviceFromReading data m) k = hasKey m k := by
  unfold updateDeviceFromReading
  cases h1 : getv data "sensor_type" with
  | none => rfl
  | some v =>
    cases v with
    | null => rfl
    | bool b => rfl
    | num q => rfl
    | str st => exact hasKey_updateDeviceRecord st (getv data "value") m k

theorem sensor_data_post_nonempty (data : Obj) (now : String) (s : ServerState)
    (h : data ≠ []) :
    sensor_data_post (some data) now s =
      (.created (stampTimestamp data now),
       { sensor_data := s.sensor_data ++ [stampTimestamp data now],
         device_status := updateDeviceFromReading (stampTimestamp data now) s.device_status }) := by
  cases data with
  | nil => exact absurd rfl h
  | cons p rest => rfl

theorem device_put_known_nonempty (id : String) (data r₀ : Obj) (s : ServerState)
    (hdev : getv s.device_status id = some r₀) (h : data ≠ []) :
    device_put id (some data) s =
      (.deviceUpdated id (updateObj r₀ data),
       { s with device_status := setv s.device_status id (updateObj r₀ data) }) := by
  unfold device_put
  rw [hdev]
  cases data with
  | nil => exact absurd rfl h
  | cons p rest => rfl

theorem device_put_unknown (id : String) (body : Option Obj) (s : ServerState)
    (hdev : getv s.device_status id = none) :
    device_put id body s = (.deviceNotFound, s) := by
  unfold device_put
  rw [hdev]

theorem postMany_sensor_data (bodies : List Obj) (now : String) (s : ServerState)
    (h : ∀ b ∈ bodies, b ≠ []) :
    (postMany bodies now s).sensor_data =
      s.sensor_data ++ bodies.map (fun b => stampTimestamp b now) := by
  induction bodies generalizing s with
  | nil => simp [postMany]
  | cons b rest ih =>
    have hb : b ≠ [] := h b (List.mem_cons_self b rest)
    have hstep : postMany (b :: rest) now s =
        postMany rest now ((handle (.postSensorData (some b)) now s).2) := rfl
    rw [hstep, ih _ (fun x hx => h x (List.mem_cons_of_mem b hx))]
    show ((sensor_data_post (some b) now s).2).sensor_data ++ _ = _
    rw [sensor_data_post_nonempty b now s hb]
    simp

theorem getv_eq_none_of_hasKey_false {α : Type} (d : Dict α) (k : String)
    (h : hasKey d k = false) : getv d k = none := by
  cases hg : getv d k with
  | none => rfl
  | some v =>
    have h' : (getv d k).isSome = false := h
    rw [hg] at h'
    simp at h'

/-! ### The claims -/

/-- C4: a POST to /api/sensors/data whose body is absent or not valid JSON
is answered with status 400 and the error text "No data provided", and
leaves the whole server state (reading list and device map) unchanged. -/
theorem c4_post_no_body (now : String) (s : ServerState) :
    handle (.postSensorData none) now s = (.noData, s) ∧
    Resp.statusCode .noData = 400 ∧
    Resp.errorField .noData = some "No data provided" :=
  ⟨rfl, rfl, rfl⟩

/-- C8: when the outbound peer request of /api/system/communicate raises
any exception, the response is a 500 whose body carries an error field and
the stringified exception text, uniformly for every exception, and the
server state is unchanged. -/
theorem c8_communicate_failure (msg now : String) (s : ServerState) :
    handle (.postCommunicate (.exc msg)) now s =
      (.commFailed "Communication failed" msg now, s) ∧
    Resp.statusCode (.commFailed "Communication failed" msg now) = 500 ∧
    Resp.errorField (.commFailed "Communication failed" msg now) =
      some "Communication failed" :=
  ⟨rfl, rfl, rfl⟩

/-- C9: every GET endpoint is read-only: handling any GET request leaves
the server state (reading list and device map) exactly unchanged. -/
theorem c9_get_readonly (req : Request) (now : String) (s : ServerState)
    (h : req.isGet = true) : (handle req now s).2 = s := by
  cases req with
  | getRoot => rfl
  | getHealth => rfl
  | getSensors => rfl
  | getSensorData => rfl
  | getDevices => rfl
  | getDevice id => rfl
  | getSystemInfo => rfl
  | postSensorData body => simp [Request.isGet] at h
  | putDevice id body => simp [Request.isGet] at h
  | postCommunicate oc => simp [Request.isGet] at h

/-- Witness for C9 at a concrete GET request and state. -/
theorem c9_get_readonly_witness :
    (handle .getSensors "t" initState).2 = initState :=
  c9_get_readonly .getSensors "t" initState rfl

/-- C7: for an id that is not a key of the device map, GET and PUT on
/api/devices/id answer 404 with error text "Device not found"; for an id
that is a key, GET returns that record. -/
theorem c7_device_not_found :
    (∀ (id now : String) (s : ServerState) (body : Option Obj),
      getv s.device_status id = none →
        handle (.getDevice id) now s = (.deviceNotFound, s) ∧
        handle (.putDevice id body) now s = (.deviceNotFound, s) ∧
        Resp.statusCode .deviceNotFound = 404 ∧
        Resp.errorField .deviceNotFound = some "Device not found") ∧
    (∀ (id now : String) (s : ServerState) (r : Obj),
      getv s.device_status id = some r →
        handle (.getDevice id) now s = (.deviceGot id r now, s)) := by
  constructor
  · intro id now s body h
    refine ⟨?_, ?_, rfl, rfl⟩
    · have hg : device_get id now s = .deviceNotFound := by
        unfold device_get
        rw [h]
      show (device_get id now s, s) = _
      rw [hg]
    · show device_put id body s = _
      exact device_put_unknown id body s h
  · intro id now s r h
    have hg : device_get id now s = .deviceGot id r now := by
      unfold device_get
      rw [h]
    show (device_get id now s, s) = _
    rw [hg]

/-- Witness for C7 at the unknown id "unknown_id" and the known id
"temperature_sensor" in the initial state. -/
theorem c7_device_not_found_witness :
    (handle (.getDevice "unknown_id") "t" initState = (.deviceNotFound, initState) ∧
     handle (.putDevice "unknown_id" none) "t" initState = (.deviceNotFound, initState) ∧
     Resp.statusCode .deviceNotFound = 404 ∧
     Resp.errorField .deviceNotFound = some "Device not found") ∧
    handle (.getDevice "temperature_sensor") "t" initState =
      (.deviceGot "temperature_sensor"
        [("status", .str "online"), ("last_reading", .num 22.5), ("unit", .str "Â°C")] "t",
       initState) :=
  ⟨c7_device_not_found.1 "unknown_id" "t" initState none rfl,
   c7_device_not_found.2 "temperature_sensor" "t" initState _ rfl⟩

/-- C6: the set of device identifiers never grows: no request creates a
new key of the device map, and a PUT addressed to an unknown identifier
fails with 404 leaving the state unchanged. -/
theorem c6_device_keys_never_grow :
    (∀ (req : Request) (now : String) (s : ServerState) (k : String),
      hasKey ((handle req now s).2).device_status k = true →
        hasKey s.device_status k = true) ∧
    (∀ (id : String) (body : Option Obj) (now : String) (s : ServerState),
      hasKey s.device_status id = false →
        handle (.putDevice id body) now s = (.deviceNotFound, s)) := by
  constructor
  · intro req now s k h
    cases req with
    | getRoot => exact h
    | getHealth => exact h
    | getSensors => exact h
    | getSensorData => exact h
    | getDevices => exact h
    | getDevice id => exact h
    | getSystemInfo => exact h
    | postCommunicate oc => exact h
    | postSensorData body =>
      cases body with
      | none => exact h
      | some data =>
        cases data with
        | nil => exact h
        | cons p rest =>
          have h' : hasKey (updateDeviceFromReading
              (stampTimestamp (p :: rest) now) s.device_status) k = true := h
          rwa [hasKey_updateDeviceFromReading] at h'
    | putDevice id body =>
      cases hdev : getv s.device_status id with
      | none =>
        have hs : (handle (.putDevice id body) now s).2 = s := by
          show (device_put id body s).2 = s
          rw [device_put_unknown id body s hdev]
        rwa [hs] at h
      | some r₀ =>
        cases body with
        | none =>
          have hs : (handle (.putDevice id none) now s).2 = s := by
            show (device_put id none s).2 = s
            unfold device_put
            rw [hdev]
          rwa [hs] at h
        | some data =>
          cases data with
          | nil =>
            have hs : (handle (.putDevice id (some [])) now s).2 = s := by
              show (device_put id (some []) s).2 = s
              unfold device_put
              rw [hdev]
              rfl
            rwa [hs] at h
          | cons p rest =>
            have hput := device_put_known_nonempty id (p :: rest) r₀ s hdev (by simp)
            have hs : (handle (.putDevice id (some (p :: rest))) now s).2.device_status =
                setv s.device_status id (updateObj r₀ (p :: rest)) := by
              show (device_put id (some (p :: rest)) s).2.device_status = _
              rw [hput]
            rw [hs] at h
            have hid : hasKey s.device_status id = true := by
              simp [hasKey, hdev]
            rwa [hasKey_setv_of_hasKey s.device_status id k _ hid] at h
  · intro id body now s h
    show device_put id body s = _
    exact device_put_unknown id body s (getv_eq_none_of_hasKey_false _ _ h)

/-- Witness for C6: a key of the initial map survives a rejected PUT, and
a PUT to an unknown id fails. -/
theorem c6_device_keys_never_grow_witness :
    hasKey initState.device_status "temperature_sensor" = true ∧
    handle (.putDevice "unknown_id" none) "t" initState = (.deviceNotFound, initState) :=
  ⟨c6_device_keys_never_grow.1 (.putDevice "unknown_id" none) "t" initState
      "temperature_sensor" rfl,
   c6_device_keys_never_grow.2 "unknown_id" none "t" initState rfl⟩

/-- C2: a successful POST whose sensor_type names a known device leaves
that device record with last_reading equal to the posted value field and
status "online", and a subsequent GET /api/devices/id observes exactly
those values. -/
theorem c2_post_updates_device (data : Obj) (id : String) (v : JVal) (r₀ : Obj)
    (now now' : String) (s : ServerState)
    (hst : getv data "sensor_type" = some (.str id))
    (hval : getv data "value" = some v)
    (hdev : getv s.device_status id = some r₀) :
    ∃ r₁,
      getv ((handle (.postSensorData (some data)) now s).2).device_status id = some r₁ ∧
      getv r₁ "last_reading" = some v ∧
      getv r₁ "status" = some (.str "online") ∧
      handle (.getDevice id) now' ((handle (.postSensorData (some data)) now s).2) =
        (.deviceGot id r₁ now', (handle (.postSensorData (some data)) now s).2) := by
  have hne : data ≠ [] := by
    intro hd
    rw [hd] at hst
    simp [getv] at hst
  have hst' : getv (stampTimestamp data now) "sensor_type" = some (.str id) := by
    rw [getv_stampTimestamp_ne data now _ (by decide)]
    exact hst
  have hval' : getv (stampTimestamp data now) "value" = some v := by
    rw [getv_stampTimestamp_ne data now _ (by decide)]
    exact hval
  have hdevst : ((handle (.postSensorData (some data)) now s).2).device_status =
      setv s.device_status id
        (setv (setv r₀ "last_reading" v) "status" (.str "online")) := by
    show ((sensor_data_post (some data) now s).2).device_status = _
    rw [sensor_data_post_nonempty data now s hne]
    show updateDeviceFromReading (stampTimestamp data now) s.device_status = _
    rw [updateDeviceFromReading_known (stampTimestamp data now) id r₀ s.device_status hst' hdev]
    rw [hval']
    rfl
  refine ⟨setv (setv r₀ "last_reading" v) "status" (.str "online"), ?_, ?_, ?_, ?_⟩
  · rw [hdevst]
    exact getv_setv_self _ _ _
  · rw [getv_setv_ne _ _ (by decide : "last_reading" ≠ "status")]
    exact getv_setv_self _ _ _
  · exact getv_setv_self _ _ _
  · have hg : getv ((handle (.postSensorData (some data)) now s).2).device_status id =
        some (setv (setv r₀ "last_reading" v) "status" (.str "online")) := by
      rw [hdevst]
      exact getv_setv_self _ _ _
    have hgot : device_get id now' ((handle (.postSensorData (some data)) now s).2) =
        .deviceGot id (setv (setv r₀ "last_reading" v) "status" (.str "online")) now' := by
      unfold device_get
      rw [hg]
    show (device_get id now' _, _) = _
    rw [hgot]

/-- Witness for C2: posting sensor_type temperature_sensor with value 30.1
to the initial state. -/
theorem c2_post_updates_device_witness :
    ∃ r₁,
      getv ((handle (.postSensorData
          (some [("sensor_type", JVal.str "temperature_sensor"), ("value", JVal.num 30.1)]))
          "t" initState).2).device_status "temperature_sensor" = some r₁ ∧
      getv r₁ "last_reading" = some (JVal.num 30.1) ∧
      getv r₁ "status" = some (JVal.str "online") ∧
      handle (.getDevice "temperature_sensor") "u"
          ((handle (.postSensorData
            (some [("sensor_type", JVal.str "temperature_sensor"), ("value", JVal.num 30.1)]))
            "t" initState).2) =
        (.deviceGot "temperature_sensor" r₁ "u",
         (handle (.postSensorData
            (some [("sensor_type", JVal.str "temperature_sensor"), ("value", JVal.num 30.1)]))
            "t" initState).2) :=
  c2_post_updates_device
    [("sensor_type", JVal.str "temperature_sensor"), ("value", JVal.num 30.1)]
    "temperature_sensor" (JVal.num 30.1) _ "t" "u" initState rfl rfl rfl

/-- C10: a successful POST naming a known device in sensor_type but
carrying no value field overwrites that device's last_reading with null
(Python None) and still sets status to "online". -/
theorem c10_post_missing_value (data : Obj) (id : String) (r₀ : Obj)
    (now : String) (s : ServerState)
    (hst : getv data "sensor_type" = some (.str id))
    (hval : hasKey data "value" = false)
    (hdev : getv s.device_status id = some r₀) :
    ∃ r₁,
      getv ((handle (.postSensorData (some data)) now s).2).device_status id = some r₁ ∧
      getv r₁ "last_reading" = some .null ∧
      getv r₁ "status" = some (.str "online") := by
  have hne : data ≠ [] := by
    intro hd
    rw [hd] at hst
    simp [getv] at hst
  have hst' : getv (stampTimestamp data now) "sensor_type" = some (.str id) := by
    rw [getv_stampTimestamp_ne data now _ (by decide)]
    exact hst
  have hval' : getv (stampTimestamp data now) "value" = none := by
    rw [getv_stampTimestamp_ne data now _ (by decide)]
    exact getv_eq_none_of_hasKey_false data "value" hval
  have hdevst : ((handle (.postSensorData (some data)) now s).2).device_status =
      setv s.device_status id
        (setv (setv r₀ "last_reading" .null) "status" (.str "online")) := by
    show ((sensor_data_post (some data) now s).2).device_status = _
    rw [sensor_data_post_nonempty data now s hne]
    show updateDeviceFromReading (stampTimestamp data now) s.device_status = _
    rw [updateDeviceFromReading_known (stampTimestamp data now) id r₀ s.device_status hst' hdev]
    rw [hval']
    rfl
  refine ⟨setv (setv r₀ "last_reading" .null) "status" (.str "online"), ?_, ?_, ?_⟩
  · rw [hdevst]
    exact getv_setv_self _ _ _
  · rw [getv_setv_ne _ _ (by decide : "last_reading" ≠ "status")]
    exact getv_setv_self _ _ _
  · exact getv_setv_self _ _ _

/-- Witness for C10: posting a reading for motion_sensor with no value
field to the initial state. -/
theorem c10_post_missing_value_witness :
    ∃ r₁,
      getv ((handle (.postSensorData (some [("sensor_type", JVal.str "motion_sensor")]))
          "t" initState).2).device_status "motion_sensor" = some r₁ ∧
      getv r₁ "last_reading" = some JVal.null ∧
      getv r₁ "status" = some (JVal.str "online") :=
  c10_post_missing_value [("sensor_type", JVal.str "motion_sensor")]
    "motion_sensor" _ "t" initState rfl rfl rfl

/-- C1: after a sequence of N successful POSTs to /api/sensors/data from
an empty reading list, GET /api/sensors/data returns exactly min(N, 100)
readings, a suffix of the stored sequence (the most recently appended
ones, in insertion order), and reports count N, the full length of the
sequence. -/
theorem c1_get_after_posts (bodies : List Obj) (now now' : String) (s₀ : ServerState)
    (h0 : s₀.sensor_data = []) (hne : ∀ b ∈ bodies, b ≠ []) :
    (postMany bodies now s₀).sensor_data =
      bodies.map (fun b => stampTimestamp b now) ∧
    handle .getSensorData now' (postMany bodies now s₀) =
      (.dataList ((postMany bodies now s₀).sensor_data.drop (bodies.length - 100))
        bodies.length now',
       postMany bodies now s₀) ∧
    ((postMany bodies now s₀).sensor_data.drop (bodies.length - 100)).length =
      min bodies.length 100 ∧
    (postMany bodies now s₀).sensor_data.drop (bodies.length - 100) <:+
      (postMany bodies now s₀).sensor_data := by
  have hsd : (postMany bodies now s₀).sensor_data =
      bodies.map (fun b => stampTimestamp b now) := by
    rw [postMany_sensor_data bodies now s₀ hne, h0]
    simp
  have hlen : (postMany bodies now s₀).sensor_data.length = bodies.length := by
    rw [hsd, List.length_map]
  refine ⟨hsd, ?_, ?_, ?_⟩
  · show (sensor_data_get now' _, _) = _
    unfold sensor_data_get takeLast
    rw [hlen]
  · rw [List.length_drop, hlen]
    omega
  · exact List.drop_suffix _ _

/-- Witness for C1: two successful posts to the initial state. -/
theorem c1_get_after_posts_witness :
    (postMany [[("v", JVal.str "a")], [("v", JVal.str "b")]] "t" initState).sensor_data =
      ([[("v", JVal.str "a")], [("v", JVal.str "b")]] : List Obj).map
        (fun b => stampTimestamp b "t") ∧
    handle .getSensorData "u"
        (postMany [[("v", JVal.str "a")], [("v", JVal.str "b")]] "t" initState) =
      (.dataList
        ((postMany [[("v", JVal.str "a")], [("v", JVal.str "b")]] "t" initState).sensor_data.drop
          (([[("v", JVal.str "a")], [("v", JVal.str "b")]] : List Obj).length - 100))
        ([[("v", JVal.str "a")], [("v", JVal.str "b")]] : List Obj).length "u",
       postMany [[("v", JVal.str "a")], [("v", JVal.str "b")]] "t" initState) ∧
    ((postMany [[("v", JVal.str "a")], [("v", JVal.str "b")]] "t" initState).sensor_data.drop
        (([[("v", JVal.str "a")], [("v", JVal.str "b")]] : List Obj).length - 100)).length =
      min ([[("v", JVal.str "a")], [("v", JVal.str "b")]] : List Obj).length 100 ∧
    (postMany [[("v", JVal.str "a")], [("v", JVal.str "b")]] "t" initState).sensor_data.drop
        (([[("v", JVal.str "a")], [("v", JVal.str "b")]] : List Obj).length - 100) <:+
      (postMany [[("v", JVal.str "a")], [("v", JVal.str "b")]] "t" initState).sensor_data :=
  c1_get_after_posts [[("v", JVal.str "a")], [("v", JVal.str "b")]] "t" "u" initState
    rfl (by decide)

/-- Invariant of C5: every stored reading carries a timestamp field. -/
def ReadingsStamped (s : ServerState) : Prop :=
  ∀ r ∈ s.sensor_data, hasKey r "timestamp" = true

/-- C5: every request handler preserves the invariant that every stored
reading has a timestamp field, and the reading appended by a successful
POST carries the receipt time when the client omitted a timestamp and the
client value verbatim otherwise, all other fields stored unchanged. -/
theorem c5_timestamp_invariant :
    (∀ (req : Request) (now : String) (s : ServerState),
      ReadingsStamped s → ReadingsStamped (handle req now s).2) ∧
    (∀ (data : Obj) (now : String) (s : ServerState), data ≠ [] →
      ∃ stored,
        ((handle (.postSensorData (some data)) now s).2).sensor_data =
          s.sensor_data ++ [stored] ∧
        hasKey stored "timestamp" = true ∧
        (hasKey data "timestamp" = false →
          getv stored "timestamp" = some (.str now)) ∧
        (hasKey data "timestamp" = true →
          getv stored "timestamp" = getv data "timestamp") ∧
        (∀ k, k ≠ "timestamp" → getv stored k = getv data k)) := by
  constructor
  · intro req now s hs
    cases req with
    | getRoot => exact hs
    | getHealth => exact hs
    | getSensors => exact hs
    | getSensorData => exact hs
    | getDevices => exact hs
    | getDevice id => exact hs
    | getSystemInfo => exact hs
    | postCommunicate oc => exact hs
    | postSensorData body =>
      cases body with
      | none => exact hs
      | some data =>
        cases data with
        | nil => exact hs
        | cons p rest =>
          intro r hr
          have hsd : ((handle (.postSensorData (some (p :: rest))) now s).2).sensor_data =
              s.sensor_data ++ [stampTimestamp (p :: rest) now] := by
            show ((sensor_data_post (some (p :: rest)) now s).2).sensor_data = _
            rw [sensor_data_post_nonempty (p :: rest) now s (by simp)]
          rw [hsd] at hr
          rcases List.mem_append.mp hr with h1 | h2
          · exact hs r h1
          · rw [List.mem_singleton.mp h2]
            exact hasKey_stampTimestamp _ _
    | putDevice id body =>
      intro r hr
      apply hs r
      have hsame : ((handle (.putDevice id body) now s).2).sensor_data = s.sensor_data := by
        show ((device_put id body s).2).sensor_data = _
        unfold device_put
        cases hdev : getv s.device_status id with
        | none => rfl
        | some r₀ =>
          cases body with
          | none => rfl
          | some data =>
            cases data with
            | nil => rfl
            | cons p rest => rfl
      rwa [hsame] at hr
  · intro data now s hne
    refine ⟨stampTimestamp data now, ?_, hasKey_stampTimestamp data now, ?_, ?_, ?_⟩
    · show ((sensor_data_post (some data) now s).2).sensor_data = _
      rw [sensor_data_post_nonempty data now s hne]
    · intro h
      exact getv_stampTimestamp_absent data now h
    · intro h
      exact getv_stampTimestamp_present data now h
    · intro k hk
      exact getv_stampTimestamp_ne data now k hk

/-- Witness for C5: the invariant after one post to the initial state, and
the stamping facts for a reading without a timestamp. -/
theorem c5_timestamp_invariant_witness :
    ReadingsStamped (handle (.postSensorData (some [("v", JVal.str "a")])) "t" initState).2 ∧
    (∃ stored,
      ((handle (.postSensorData (some [("v", JVal.str "a")])) "t" initState).2).sensor_data =
        initState.sensor_data ++ [stored] ∧
      hasKey stored "timestamp" = true ∧
      (hasKey [("v", JVal.str "a")] "timestamp" = false →
        getv stored "timestamp" = some (.str "t")) ∧
      (hasKey [("v", JVal.str "a")] "timestamp" = true →
        getv stored "timestamp" = getv [("v", JVal.str "a")] "timestamp") ∧
      (∀ k, k ≠ "timestamp" → getv stored k = getv [("v", JVal.str "a")] k)) :=
  ⟨c5_timestamp_invariant.1 (.postSensorData (some [("v", JVal.str "a")])) "t" initState
      (fun r hr => absurd hr (by simp [initState])),
   c5_timestamp_invariant.2 [("v", JVal.str "a")] "t" initState (by simp)⟩

/-- C3: for a known device id and a valid JSON body (unique keys, as any
parsed JSON object has), PUT /api/devices/id performs a shallow merge on
the device record: every key of the body overwrites that field, every
field not named in the body is unchanged, and applying the same PUT twice
leaves the record with the same content (dict equality) as applying it
once. -/
theorem c3_put_shallow_merge (s : ServerState) (id : String) (data r₀ : Obj)
    (hdev : getv s.device_status id = some r₀)
    (hnd : (data.map Prod.fst).Nodup) :
    ∃ r₁ r₂,
      getv ((device_put id (some data) s).2).device_status id = some r₁ ∧
      getv ((device_put id (some data)
          (device_put id (some data) s).2).2).device_status id = some r₂ ∧
      (∀ k v, getv data k = some v → getv r₁ k = some v) ∧
      (∀ k, hasKey data k = false → getv r₁ k = getv r₀ k) ∧
      ObjEquiv r₂ r₁ := by
  cases data with
  | nil =>
    have h1 : device_put id (some []) s = (.noData, s) := by
      unfold device_put
      rw [hdev]
      rfl
    refine ⟨r₀, r₀, ?_, ?_, ?_, fun k _ => rfl, fun k => rfl⟩
    · rw [h1]
      exact hdev
    · rw [h1, h1]
      exact hdev
    · intro k v hkv
      simp [getv] at hkv
  | cons p rest =>
    have hput1 := device_put_known_nonempty id (p :: rest) r₀ s hdev (by simp)
    have hs1 : getv ((device_put id (some (p :: rest)) s).2).device_status id =
        some (updateObj r₀ (p :: rest)) := by
      rw [hput1]
      exact getv_setv_self _ _ _
    have hput2 := device_put_known_nonempty id (p :: rest)
      (updateObj r₀ (p :: rest)) (device_put id (some (p :: rest)) s).2 hs1 (by simp)
    have hs2 : getv ((device_put id (some (p :: rest))
        (device_put id (some (p :: rest)) s).2).2).device_status id =
        some (updateObj (updateObj r₀ (p :: rest)) (p :: rest)) := by
      rw [hput2]
      exact getv_setv_self _ _ _
    refine ⟨updateObj r₀ (p :: rest), updateObj (updateObj r₀ (p :: rest)) (p :: rest),
      hs1, hs2, ?_, ?_, ?_⟩
    · intro k v hkv
      exact getv_updateObj_of_getv r₀ (p :: rest) k v hnd hkv
    · intro k hk
      exact getv_updateObj_of_not_hasKey r₀ (p :: rest) k hk
    · intro k
      cases hk : hasKey (p :: rest) k with
      | false =>
        rw [getv_updateObj_of_not_hasKey _ _ _ hk]
      | true =>
        obtain ⟨v, hv⟩ := Option.isSome_iff_exists.mp hk
        rw [getv_updateObj_of_getv (updateObj r₀ (p :: rest)) _ _ _ hnd hv,
          getv_updateObj_of_getv r₀ _ _ _ hnd hv]

/-- Witness for C3: setting status to offline on temperature_sensor in the
initial state. -/
theorem c3_put_shallow_merge_witness :
    ∃ r₁ r₂,
      getv ((device_put "temperature_sensor" (some [("status", JVal.str "offline")])
          initState).2).device_status "temperature_sensor" = some r₁ ∧
      getv ((device_put "temperature_sensor" (some [("status", JVal.str "offline")])
          (device_put "temperature_sensor" (some [("status", JVal.str "offline")])
            initState).2).2).device_status "temperature_sensor" = some r₂ ∧
      (∀ k v, getv [("status", JVal.str "offline")] k = some v → getv r₁ k = some v) ∧
      (∀ k, hasKey [("status", JVal.str "offline")] k = false →
        getv r₁ k = getv
          [("status", JVal.str "online"), ("last_reading", JVal.num 22.5),
           ("unit", JVal.str "Â°C")] k) ∧
      ObjEquiv r₂ r₁ :=
  c3_put_shallow_merge initState "temperature_sensor" [("status", JVal.str "offline")]
    [("status", JVal.str "online"), ("last_reading", JVal.num 22.5), ("unit", JVal.str "Â°C")]
    rfl (by decide)
